import Mathlib

/-!
Shallow embedding of the algorithmic core of the diesel-dashboard repository:
the DIESEL emission schedule and mint tracker
(src/dashboard/src/services/mint-tracker.ts) and the distribution metrics
engine (src/dashboard/src/services/distribution-metrics.ts), together with
the constants of src/dashboard/src/types/diesel.ts.

Modelling conventions:
* JavaScript BigInt values are modelled as Int.  BigInt division truncates
  toward zero, hence jsDiv below is Int.tdiv.  The BigInt right-shift
  operator on a non-negative left operand is floor division by a power of
  two; on a negative shift count it is a left shift, hence jsShiftRight.
* JavaScript number values that carry statistics or display ratios are
  modelled as exact rationals; the repository converts to floating point
  only at final ratio or percentage steps, on magnitudes far inside the
  exactly representable range considered by the claims.
* Asynchronous RPC lookups are modelled by passing the resolved response
  (or a failure marker) as an explicit argument; wall-clock timestamp
  fields produced by Date.now are omitted from the embedded records.
-/

/-- Truncating division, the semantics of the JavaScript BigInt `/` operator. -/
def jsDiv (a b : Int) : Int := Int.tdiv a b

/-- Semantics of the JavaScript BigInt right-shift operator: arithmetic
(floor) shift for a non-negative shift count, left shift for a negative one. -/
def jsShiftRight (a n : Int) : Int :=
  if 0 ≤ n then Int.fdiv a (2 ^ n.toNat) else a * 2 ^ (-n).toNat

/-- DIESEL_CONSTANTS.GENESIS_BLOCK from src/dashboard/src/types/diesel.ts. -/
def GENESIS_BLOCK : Int := 800000

/-- DIESEL_CONSTANTS.LAUNCH_BLOCK. -/
def LAUNCH_BLOCK : Int := 880000

/-- DIESEL_CONSTANTS.HALVING_INTERVAL. -/
def HALVING_INTERVAL : Int := 210000

/-- DIESEL_CONSTANTS.INITIAL_REWARD, 50 DIESEL in base units. -/
def INITIAL_REWARD : Int := 50 * 100000000

/-- DIESEL_CONSTANTS.MAX_SUPPLY in base units. -/
def MAX_SUPPLY : Int := 156250000000000

/-- DieselEmissionCalculator.calculateBlockReward from mint-tracker.ts:
zero before the genesis block, otherwise the initial reward shifted right by
the halving epoch. -/
def calculateBlockReward (blockHeight : Int) : Int :=
  if blockHeight < GENESIS_BLOCK then 0
  else
    let blocksSinceGenesis := blockHeight - GENESIS_BLOCK
    let halvingEpoch := jsDiv blocksSinceGenesis HALVING_INTERVAL
    jsShiftRight INITIAL_REWARD halvingEpoch

/-- Body of the while loop of DieselEmissionCalculator.calculateCumulativeEmission,
with the loop expressed by fuel-indexed recursion.  The fuel supplied by
calculateCumulativeEmission strictly exceeds the number of iterations the
source loop can make (the running block height increases by at least one per
iteration while it stays at most currentBlock), so the fuel-zero branch is
never the value actually returned. -/
def cumulativeLoop (currentBlock : Int) : Nat → Int → Int → Int
  | 0, totalEmission, _ => totalEmission
  | fuel + 1, totalEmission, blockHeight =>
    if blockHeight ≤ currentBlock ∧ totalEmission < MAX_SUPPLY then
      let epochNumber := jsDiv (blockHeight - GENESIS_BLOCK) HALVING_INTERVAL
      let nextHalving := GENESIS_BLOCK + (epochNumber + 1) * HALVING_INTERVAL
      let epochEnd := if nextHalving < currentBlock then nextHalving else currentBlock + 1
      let blocksInEpoch := epochEnd - blockHeight
      let rewardPerBlock := jsShiftRight INITIAL_REWARD epochNumber
      let epochEmission := blocksInEpoch * rewardPerBlock
      let newTotal := totalEmission + epochEmission
      if MAX_SUPPLY < newTotal then MAX_SUPPLY
      else cumulativeLoop currentBlock fuel newTotal epochEnd
    else totalEmission

/-- DieselEmissionCalculator.calculateCumulativeEmission from mint-tracker.ts. -/
def calculateCumulativeEmission (currentBlock : Int) : Int :=
  if currentBlock < GENESIS_BLOCK then 0
  else cumulativeLoop currentBlock ((currentBlock + 1 - GENESIS_BLOCK).toNat + 1) 0 GENESIS_BLOCK

/-- Reference definition for the refinement claim about cumulative emission,
taken from the words of the claim rather than from the source: the naive
per-height sum of calculateBlockReward from the genesis height up to the
given height inclusive, clamped to MAX_SUPPLY. -/
def referenceCumulativeEmission (h : Int) : Int :=
  min (∑ k ∈ Finset.range (h + 1 - GENESIS_BLOCK).toNat,
        calculateBlockReward (GENESIS_BLOCK + (k : Int))) MAX_SUPPLY

/-- ClaimantData record of mint-tracker.ts (timestamp field modelled as Int). -/
structure ClaimantData where
  address : String
  blockHeight : Int
  amount : Int
  transactionId : String
  timestamp : Int
deriving DecidableEq

/-- ParticipationData record of mint-tracker.ts, without the wall-clock
timestamp field that the source fills with Date.now(). -/
structure ParticipationData where
  blockHeight : Int
  totalClaimants : Nat
  rewardPerClaimant : Int
  totalDistributed : Int
deriving DecidableEq

/-- TrendData record of mint-tracker.ts. -/
structure TrendData where
  blocks : List ParticipationData
  averageParticipants : ℚ
  peakParticipants : Nat
  minParticipants : Nat
  totalUniqueAddresses : Nat
deriving DecidableEq

/-- Shape of one entry of the protorunes-by-height RPC response as read by
getBlockClaimants: every field access is optional in the source. -/
structure MintEntry where
  alkane_id : Option Int
  address : Option String
  amount : Option Int
  txid : Option String
  timestamp : Option Int
deriving DecidableEq

/-- MintTracker.getBlockClaimants.  The resolved RPC outcome is passed
explicitly: none models a thrown error (the catch branch returns an empty
list), some none models a null response or a result that is not an array
(also an empty list), some (some entries) is a well-formed response.  The
source filters entries whose alkane id prints equal to the genesis block id
and maps them to claimant records with defaults for missing fields. -/
def getBlockClaimants (blockHeight : Int)
    (response : Option (Option (List MintEntry))) : List ClaimantData :=
  match response with
  | none => []
  | some none => []
  | some (some entries) =>
    let dieselMints := entries.filter (fun e => e.alkane_id = some GENESIS_BLOCK)
    dieselMints.map (fun m =>
      { address := m.address.getD "unknown"
        blockHeight := blockHeight
        amount := m.amount.getD 0
        transactionId := m.txid.getD ""
        timestamp := m.timestamp.getD 0 })

/-- MintTracker.calculateRewardPerClaimant: zero for zero claimants,
otherwise BigInt division of the block reward by the claimant count. -/
def calculateRewardPerClaimant (blockReward claimantCount : Int) : Int :=
  if claimantCount = 0 then 0 else jsDiv blockReward claimantCount

/-- Inline block-reward computation repeated inside getParticipationTrends,
getCurrentBlockParticipation and getTreasuryParticipation: it reproduces the
emission-calculator formula but omits the guard for heights below the
genesis block that calculateBlockReward has. -/
def trendsBlockReward (height : Int) : Int :=
  let blocksSinceGenesis := height - GENESIS_BLOCK
  let halvingEpoch := jsDiv blocksSinceGenesis HALVING_INTERVAL
  jsShiftRight INITIAL_REWARD halvingEpoch

/-- Loop body of getParticipationTrends building one ParticipationData entry
for a height from its claimant list; getCurrentBlockParticipation builds its
result with the same computation. -/
def trendsSnapshot (height : Int) (claimants : List ClaimantData) : ParticipationData :=
  let blockReward := trendsBlockReward height
  let participantCount := claimants.length
  let rewardPerClaimant :=
    if 0 < participantCount then calculateRewardPerClaimant blockReward (participantCount : Int)
    else 0
  { blockHeight := height
    totalClaimants := participantCount
    rewardPerClaimant := rewardPerClaimant
    totalDistributed := blockReward }

/-- Heights from start to stop inclusive, the range scanned by the for loop
of getParticipationTrends. -/
def intRange (start stop : Int) : List Int :=
  (List.range (stop + 1 - start).toNat).map (fun k => start + (k : Int))

/-- MintTracker.getParticipationTrends.  The per-height claimant source is
passed as an explicit function, standing for the awaited getBlockClaimants
results. -/
def getParticipationTrends (startBlock endBlock : Int)
    (claimantsAt : Int → List ClaimantData) : TrendData :=
  let heights := intRange startBlock endBlock
  let blocks := heights.map (fun h => trendsSnapshot h (claimantsAt h))
  let uniqueAddresses := ((heights.map (fun h => (claimantsAt h).map (·.address))).flatten).dedup
  let counts := blocks.map (·.totalClaimants)
  let totalParticipants : Nat := counts.foldl (· + ·) 0
  let peakParticipants := counts.foldl max 0
  let minFold := (counts.filter (fun c => 0 < c)).foldl min 9007199254740991
  let blockCount := endBlock - startBlock + 1
  { blocks := blocks
    averageParticipants :=
      if 0 < blockCount then (totalParticipants : ℚ) / (blockCount : ℚ) else 0
    peakParticipants := peakParticipants
    minParticipants := if minFold = 9007199254740991 then 0 else minFold
    totalUniqueAddresses := uniqueAddresses.length }

/-- MintTracker.getCurrentBlockParticipation.  The blockchain-info lookup and
the claimant lookup are passed as resolved outcomes: a none blockInfo models
the catch branch (the source then returns null), some blocksField carries the
optional blocks field whose absence the source replaces by zero. -/
def getCurrentBlockParticipation (blockInfo : Option (Option Int))
    (response : Option (Option (List MintEntry))) : Option ParticipationData :=
  match blockInfo with
  | none => none
  | some blocksField =>
    let currentHeight := blocksField.getD 0
    some (trendsSnapshot currentHeight (getBlockClaimants currentHeight response))

/-- MintTracker.getTreasuryParticipation: finds the treasury claim at the
height and caps it at half of the inline block reward; zero when the
treasury address has no claim. -/
def getTreasuryParticipation (blockHeight : Int) (claimants : List ClaimantData)
    (treasuryAddress : String) : Int :=
  match claimants.find? (fun c => c.address = treasuryAddress) with
  | some treasuryClaim =>
    let blockReward := trendsBlockReward blockHeight
    let maxTreasuryReward := jsDiv blockReward 2
    if maxTreasuryReward < treasuryClaim.amount then maxTreasuryReward
    else treasuryClaim.amount
  | none => 0

/-- TokenBalance record of distribution-metrics.ts; the percentage field is
a display number, modelled as a rational. -/
structure TokenBalance where
  address : String
  balance : Int
  percentage : ℚ
deriving DecidableEq

/-- HolderCategories record of distribution-metrics.ts. -/
structure HolderCategories where
  whales : List TokenBalance
  dolphins : List TokenBalance
  shrimp : List TokenBalance
  totalSupply : Int
  holderCount : Nat
deriving DecidableEq

/-- Result record of calculateConcentrationMetrics. -/
structure ConcentrationMetrics where
  top1PercentShare : ℚ
  top10PercentShare : ℚ
  nakamotoCoefficient : Nat
deriving DecidableEq

/-- DistributionMetrics.calculateGiniCoefficient.  The bigint part (sorting,
weighted sum, the ten-thousandths truncation) is exact in the source; only
the final ratio, subtraction and clamp are done on numbers, modelled here as
exact rationals. -/
def calculateGiniCoefficient (balances : List Int) : ℚ :=
  if balances.length = 0 then 0
  else if balances.length = 1 then 0
  else
    let sortedBalances := List.insertionSort (· ≤ ·) balances
    let total := sortedBalances.foldl (· + ·) 0
    if total = 0 then 0
    else
      let weightedSum :=
        ∑ i ∈ Finset.range sortedBalances.length, ((i : Int) + 1) * sortedBalances.getD i 0
      let n : Int := (balances.length : Int)
      let numerator := 2 * weightedSum
      let denominator := n * total
      let giniRatio : ℚ := ((jsDiv (numerator * 10000) denominator : Int) : ℚ) / 10000
      let adjustment : ℚ := ((n + 1 : Int) : ℚ) / ((n : Int) : ℚ)
      let gini := giniRatio - adjustment
      max 0 (min 1 gini)

/-- Descending sort by balance used by categorizeHolders and
calculateConcentrationMetrics (a stable comparison sort, like the source
comparator). -/
def sortByBalanceDesc (l : List TokenBalance) : List TokenBalance :=
  List.insertionSort (fun a b => b.balance ≤ a.balance) l

/-- Percentage write performed on each holder object by categorizeHolders:
truncated BigInt ten-thousandths of total supply, then divided by one
hundred as a number. -/
def holderPercentage (totalSupply : Int) (h : TokenBalance) : TokenBalance :=
  { h with percentage :=
      if 0 < totalSupply then ((jsDiv (h.balance * 10000) totalSupply : Int) : ℚ) / 100 else 0 }

/-- Bracket size Math.ceil(n * 0.01) used for the whale slice.  For array
lengths (far below 2 to the 49) the double product n * 0.01 rounds to a
value whose ceiling is exactly the ceiling of n over one hundred, because
the double closest to 0.01 exceeds one hundredth by far less than half an
ulp of the product; the Nat expression below is that exact ceiling. -/
def top1PercentIndexOf (n : Nat) : Nat := (n + 99) / 100

/-- Bracket size Math.ceil(n * 0.1), exactly the ceiling of n over ten for
array lengths, by the same rounding argument as top1PercentIndexOf. -/
def top10PercentIndexOf (n : Nat) : Nat := (n + 9) / 10

/-- Bracket size max(1, Math.ceil(n * 0.01)) of calculateConcentrationMetrics. -/
def top1PercentCount (n : Nat) : Nat := max 1 (top1PercentIndexOf n)

/-- Bracket size max(1, Math.ceil(n * 0.1)) of calculateConcentrationMetrics. -/
def top10PercentCount (n : Nat) : Nat := max 1 (top10PercentIndexOf n)

/-- DistributionMetrics.categorizeHolders.  The source copies the array but
not the holder objects, and writes each percentage in place before slicing,
so the records seen through the original array are mutated too.  The
embedding passes that state explicitly: the first component is the content
of the original array of the caller after the call (same order, updated
objects), the second the returned categories. -/
def categorizeHolders (balances : List TokenBalance) :
    List TokenBalance × HolderCategories :=
  if balances.length = 0 then
    (balances, { whales := [], dolphins := [], shrimp := [], totalSupply := 0, holderCount := 0 })
  else
    let sorted := sortByBalanceDesc balances
    let totalSupply := (sorted.map (·.balance)).foldl (· + ·) 0
    let sortedUpdated := sorted.map (holderPercentage totalSupply)
    let callerView := balances.map (holderPercentage totalSupply)
    let top1PercentIndex := top1PercentIndexOf sorted.length
    let top10PercentIndex := top10PercentIndexOf sorted.length
    (callerView,
      { whales := sortedUpdated.take top1PercentIndex
        dolphins := (sortedUpdated.drop top1PercentIndex).take (top10PercentIndex - top1PercentIndex)
        shrimp := sortedUpdated.drop top10PercentIndex
        totalSupply := totalSupply
        holderCount := sortedUpdated.length })

/-- Loop of calculateConcentrationMetrics computing the Nakamoto
coefficient: count the largest holders until the running balance strictly
exceeds the threshold. -/
def nakamotoLoop (threshold : Int) : List TokenBalance → Int → Nat → Nat
  | [], _, coefficient => coefficient
  | h :: rest, cumulative, coefficient =>
    let cumulative2 := cumulative + h.balance
    if threshold < cumulative2 then coefficient + 1
    else nakamotoLoop threshold rest cumulative2 (coefficient + 1)

/-- DistributionMetrics.calculateConcentrationMetrics. -/
def calculateConcentrationMetrics (balances : List TokenBalance) : ConcentrationMetrics :=
  if balances.length = 0 then
    { top1PercentShare := 0, top10PercentShare := 0, nakamotoCoefficient := 0 }
  else
    let sorted := sortByBalanceDesc balances
    let totalSupply := (sorted.map (·.balance)).foldl (· + ·) 0
    if totalSupply = 0 then
      { top1PercentShare := 0, top10PercentShare := 0, nakamotoCoefficient := 0 }
    else
      let top1Count := top1PercentCount sorted.length
      let top1Balance := ((sorted.take top1Count).map (·.balance)).foldl (· + ·) 0
      let top1Share : ℚ := ((jsDiv (top1Balance * 10000) totalSupply : Int) : ℚ) / 100
      let top10Count := top10PercentCount sorted.length
      let top10Balance := ((sorted.take top10Count).map (·.balance)).foldl (· + ·) 0
      let top10Share : ℚ := ((jsDiv (top10Balance * 10000) totalSupply : Int) : ℚ) / 100
      let threshold := jsDiv totalSupply 2
      { top1PercentShare := top1Share
        top10PercentShare := top10Share
        nakamotoCoefficient := nakamotoLoop threshold sorted 0 0 }

/-- DistributionMetrics.calculateMovingAverageGini: mean of the last
windowSize values; slice with a negative argument takes a suffix, and slice
of negative zero is the whole array. -/
def calculateMovingAverageGini (historicalGiniValues : List ℚ) (windowSize : Nat) : ℚ :=
  if historicalGiniValues.length = 0 then 0
  else
    let recentValues :=
      if windowSize = 0 then historicalGiniValues
      else historicalGiniValues.drop (historicalGiniValues.length - windowSize)
    let sum := recentValues.foldl (· + ·) 0
    sum / (recentValues.length : ℚ)

/-- Total balance of a holder list in caller order, used to state frame
properties of categorizeHolders. -/
def totalSupplyOf (balances : List TokenBalance) : Int :=
  (balances.map (·.balance)).sum

/-- Shifting a non-negative value is non-negative. -/
theorem jsShiftRight_nonneg (a n : Int) (ha : 0 ≤ a) : 0 ≤ jsShiftRight a n := by
  unfold jsShiftRight
  split
  · exact Int.fdiv_nonneg ha (by positivity)
  · positivity

/-- Truncating division of non-negative operands is non-negative. -/
theorem jsDiv_nonneg {a b : Int} (ha : 0 ≤ a) (hb : 0 ≤ b) : 0 ≤ jsDiv a b :=
  Int.tdiv_nonneg ha hb

/-- On non-negative operands truncating division agrees with floor division. -/
theorem jsDiv_eq_ediv {a b : Int} (ha : 0 ≤ a) (hb : 0 ≤ b) : jsDiv a b = a / b :=
  Int.tdiv_eq_ediv ha hb

/-- Block reward of the emission calculator is never negative. -/
theorem calculateBlockReward_nonneg (h : Int) : 0 ≤ calculateBlockReward h := by
  simp only [calculateBlockReward]
  split
  · exact le_refl 0
  · exact jsShiftRight_nonneg _ _ (by norm_num [INITIAL_REWARD])

/-- Inline trends block reward is never negative, whatever the height. -/
theorem trendsBlockReward_nonneg (h : Int) : 0 ≤ trendsBlockReward h := by
  simp only [trendsBlockReward]
  exact jsShiftRight_nonneg _ _ (by norm_num [INITIAL_REWARD])

/-- At heights at or above genesis the inline trends formula agrees with the
guarded emission-calculator formula. -/
theorem trendsBlockReward_eq_calculateBlockReward (h : Int) (hg : GENESIS_BLOCK ≤ h) :
    trendsBlockReward h = calculateBlockReward h := by
  simp only [trendsBlockReward, calculateBlockReward]
  rw [if_neg (by omega)]

/-- Throughout the first halving epoch the block reward is the initial reward. -/
theorem calculateBlockReward_epoch0 (k : Nat) (hk : k < 210000) :
    calculateBlockReward (GENESIS_BLOCK + (k : Int)) = INITIAL_REWARD := by
  simp only [calculateBlockReward, GENESIS_BLOCK, HALVING_INTERVAL]
  rw [if_neg (by omega)]
  have h1 : (800000 : Int) + (k : Int) - 800000 = (k : Int) := by ring
  rw [h1]
  have h2 : jsDiv (k : Int) 210000 = 0 := by
    rw [jsDiv_eq_ediv (by positivity) (by norm_num)]
    exact Int.ediv_eq_zero_of_lt (by positivity) (by exact_mod_cast hk)
  rw [h2]
  simp [jsShiftRight, Int.fdiv_one]

theorem sum_blockReward_epoch0 (n : Nat) (hn : n ≤ 210000) :
    ∑ k ∈ Finset.range n, calculateBlockReward (GENESIS_BLOCK + (k : Int)) =
      (n : Int) * INITIAL_REWARD := by
  rw [Finset.sum_congr rfl (fun k hk => calculateBlockReward_epoch0 k
    (by have := Finset.mem_range.mp hk; omega))]
  rw [Finset.sum_const]
  simp [nsmul_eq_mul]

theorem sum_blockReward_lb (n : Nat) (hn : 210000 ≤ n) :
    (210000 : Int) * INITIAL_REWARD ≤
      ∑ k ∈ Finset.range n, calculateBlockReward (GENESIS_BLOCK + (k : Int)) := by
  have hsub : Finset.range 210000 ⊆ Finset.range n := Finset.range_subset.mpr hn
  have h1 := sum_blockReward_epoch0 210000 le_rfl
  push_cast at h1
  rw [← h1]
  exact Finset.sum_le_sum_of_subset_of_nonneg hsub
    (fun k _ _ => calculateBlockReward_nonneg _)

theorem cumulativeLoop_step (c : Int) (fuel : Nat) (t b : Int)
    (hb : b ≤ c) (ht : t < MAX_SUPPLY) :
    cumulativeLoop c (fuel + 1) t b =
      (let e := jsDiv (b - GENESIS_BLOCK) HALVING_INTERVAL
       let nh := GENESIS_BLOCK + (e + 1) * HALVING_INTERVAL
       let ee := if nh < c then nh else c + 1
       let nt := t + (ee - b) * jsShiftRight INITIAL_REWARD e
       if MAX_SUPPLY < nt then MAX_SUPPLY else cumulativeLoop c fuel nt ee) := by
  rw [cumulativeLoop]
  rw [if_pos (And.intro hb ht)]

theorem cumulativeLoop_stop (c : Int) (fuel : Nat) (t b : Int)
    (hstop : ¬(b ≤ c ∧ t < MAX_SUPPLY)) :
    cumulativeLoop c (fuel + 1) t b = t := by
  rw [cumulativeLoop]
  rw [if_neg hstop]

theorem cumulativeEmission_closed (h : Int) (hg : GENESIS_BLOCK ≤ h) :
    calculateCumulativeEmission h =
      min ((h + 1 - GENESIS_BLOCK) * INITIAL_REWARD) MAX_SUPPLY := by
  obtain ⟨f, hfeq⟩ : ∃ f : Nat, (h + 1 - GENESIS_BLOCK).toNat = f + 1 := by
    have h1 : 1 ≤ (h + 1 - GENESIS_BLOCK).toNat := by
      simp only [GENESIS_BLOCK] at hg ⊢; omega
    exact ⟨(h + 1 - GENESIS_BLOCK).toNat - 1, by omega⟩
  unfold calculateCumulativeEmission
  rw [if_neg (by omega), hfeq]
  rw [cumulativeLoop_step h (f + 1) 0 GENESIS_BLOCK hg (by norm_num [MAX_SUPPLY])]
  simp only [jsDiv, jsShiftRight, GENESIS_BLOCK, HALVING_INTERVAL, INITIAL_REWARD,
    MAX_SUPPLY] at hg ⊢
  norm_num [Int.zero_tdiv]
  by_cases hI : (1010000 : Int) < h
  · rw [if_pos hI]
    rw [if_pos (by norm_num)]
    have hx : (156250000000000 : Int) ≤ (h + 1 - 800000) * 5000000000 := by
      have h2 : (210002 : Int) * 5000000000 ≤ (h + 1 - 800000) * 5000000000 :=
        mul_le_mul_of_nonneg_right (by omega) (by norm_num)
      linarith
    rw [min_eq_right hx]
  · rw [if_neg hI]
    by_cases hM : (156250000000000 : Int) < (h + 1 - 800000) * 5000000000
    · rw [if_pos hM, min_eq_right (le_of_lt hM)]
    · rw [if_neg hM]
      rw [cumulativeLoop_stop h f _ (h + 1) (by simp only [MAX_SUPPLY]; omega)]
      rw [min_eq_left (not_lt.mp hM)]

/-- Epoch-bounded loop agrees with the clamped naive per-height sum. -/
theorem calculateCumulativeEmission_eq_reference_aux (h : Int) (hg : GENESIS_BLOCK ≤ h) :
    calculateCumulativeEmission h = referenceCumulativeEmission h := by
  rw [cumulativeEmission_closed h hg]
  unfold referenceCumulativeEmission
  have hcast : ((h + 1 - GENESIS_BLOCK).toNat : Int) = h + 1 - GENESIS_BLOCK := by
    simp only [GENESIS_BLOCK] at hg ⊢; omega
  set n := (h + 1 - GENESIS_BLOCK).toNat with hn
  by_cases hsmall : n ≤ 210000
  · rw [sum_blockReward_epoch0 n hsmall]
    rw [hcast]
  · have hlb := sum_blockReward_lb n (by omega)
    have hM1 : (MAX_SUPPLY : Int) ≤
        ∑ k ∈ Finset.range n, calculateBlockReward (GENESIS_BLOCK + (k : Int)) := by
      have h4 : (MAX_SUPPLY : Int) ≤ 210000 * INITIAL_REWARD := by
        norm_num [MAX_SUPPLY, INITIAL_REWARD]
      linarith
    have hM2 : (MAX_SUPPLY : Int) ≤ (h + 1 - GENESIS_BLOCK) * INITIAL_REWARD := by
      have h2 : (210001 : Int) * INITIAL_REWARD ≤ (h + 1 - GENESIS_BLOCK) * INITIAL_REWARD := by
        apply mul_le_mul_of_nonneg_right (by omega) (by norm_num [INITIAL_REWARD])
      have h3 : (MAX_SUPPLY : Int) ≤ 210001 * INITIAL_REWARD := by
        norm_num [MAX_SUPPLY, INITIAL_REWARD]
      linarith
    rw [min_eq_right hM1, min_eq_right hM2]

theorem jsDiv_mul_le {t k : Int} (ht : 0 ≤ t) (hk : 0 < k) : jsDiv t k * k ≤ t := by
  rw [jsDiv_eq_ediv ht (le_of_lt hk)]
  exact Int.ediv_mul_le t (ne_of_gt hk)

theorem jsDiv_dust_lt {t k : Int} (ht : 0 ≤ t) (hk : 0 < k) : t - jsDiv t k * k < k := by
  rw [jsDiv_eq_ediv ht (le_of_lt hk)]
  have h1 := Int.ediv_add_emod t k
  have h2 := Int.emod_lt_of_pos t hk
  linarith

theorem jsDiv_eq_fdiv {t k : Int} (ht : 0 ≤ t) (hk : 0 < k) : jsDiv t k = Int.fdiv t k := by
  rw [jsDiv_eq_ediv ht (le_of_lt hk), Int.fdiv_eq_ediv _ (le_of_lt hk)]

theorem trendsSnapshot_reward (h : Int) (cs : List ClaimantData) (hcs : cs ≠ []) :
    (trendsSnapshot h cs).rewardPerClaimant = jsDiv (trendsBlockReward h) (cs.length : Int) := by
  have hlen : 0 < cs.length := List.length_pos.mpr hcs
  simp only [trendsSnapshot, calculateRewardPerClaimant]
  rw [if_pos hlen, if_neg (by omega)]

theorem sorted_total (l : List TokenBalance) :
    ((sortByBalanceDesc l).map (·.balance)).foldl (· + ·) 0 = totalSupplyOf l := by
  rw [← List.sum_eq_foldl]
  unfold totalSupplyOf sortByBalanceDesc
  exact ((List.perm_insertionSort (fun a b => b.balance ≤ a.balance) l).map (·.balance)).sum_eq

theorem top1PercentIndexOf_le (n : Nat) (hn : 1 ≤ n) : top1PercentIndexOf n ≤ n := by
  unfold top1PercentIndexOf
  omega

theorem top1PercentIndexOf_pos (n : Nat) (hn : 1 ≤ n) : 1 ≤ top1PercentIndexOf n := by
  unfold top1PercentIndexOf
  omega

theorem categorizeHolders_whales_len (l : List TokenBalance) (hl : 0 < l.length) :
    (categorizeHolders l).2.whales.length = top1PercentCount l.length := by
  have hlen : (sortByBalanceDesc l).length = l.length := by
    unfold sortByBalanceDesc
    exact List.length_insertionSort _ l
  simp only [categorizeHolders]
  rw [if_neg (by omega)]
  simp only [List.length_take, List.length_map, hlen]
  rw [min_eq_left (top1PercentIndexOf_le l.length hl)]
  unfold top1PercentCount
  rw [max_eq_right (top1PercentIndexOf_pos l.length hl)]

theorem categorizeHolders_state (l : List TokenBalance) (hl : 0 < l.length) :
    (categorizeHolders l).1 = l.map (holderPercentage (totalSupplyOf l)) := by
  simp only [categorizeHolders]
  rw [if_neg (by omega)]
  rw [sorted_total]

theorem insertionSort_replicate (n : Nat) (x : Int) :
    List.insertionSort (· ≤ ·) (List.replicate n x) = List.replicate n x := by
  induction n with
  | zero => rfl
  | succ m ih =>
    rw [List.replicate_succ, List.insertionSort, ih]
    cases m with
    | zero => rfl
    | succ k =>
      rw [List.replicate_succ, List.orderedInsert, if_pos (le_refl x), ← List.replicate_succ,
        ← List.replicate_succ]

theorem getD_replicate (n i : Nat) (x : Int) (hi : i < n) :
    (List.replicate n x).getD i 0 = x := by
  induction n generalizing i with
  | zero => omega
  | succ m ih =>
    cases i with
    | zero => rfl
    | succ j =>
      rw [List.replicate_succ]
      simp only [List.getD_cons_succ]
      exact ih j (by omega)

theorem foldl_replicate (n : Nat) (x : Int) :
    (List.replicate n x).foldl (· + ·) 0 = (n : Int) * x := by
  rw [← List.sum_eq_foldl, List.sum_replicate, nsmul_eq_mul]

theorem sum_range_succ_gauss (n : Nat) :
    (∑ i ∈ Finset.range n, ((i : Int) + 1)) * 2 = (n : Int) * ((n : Int) + 1) := by
  have h1 : ∑ i ∈ Finset.range (n + 1), (i : Nat) = ∑ i ∈ Finset.range n, (i + 1) := by
    rw [Finset.sum_range_succ']
    simp
  have h2 := Finset.sum_range_id_mul_two (n + 1)
  rw [h1] at h2
  have h3 : (n + 1) * (n + 1 - 1) = (n + 1) * n := by rw [Nat.add_sub_cancel]
  rw [h3] at h2
  have h4 : ((∑ i ∈ Finset.range n, (i + 1) : Nat) : Int) = ∑ i ∈ Finset.range n, ((i : Int) + 1) := by
    push_cast
    rfl
  calc (∑ i ∈ Finset.range n, ((i : Int) + 1)) * 2
      = (((∑ i ∈ Finset.range n, (i + 1) : Nat) : Int)) * 2 := by rw [h4]
    _ = (((n + 1) * n : Nat) : Int) := by exact_mod_cast h2
    _ = (n : Int) * ((n : Int) + 1) := by push_cast; ring

theorem gini_replicate_aux (n : Nat) (x : Int) (hn : 2 ≤ n) (hx : 0 < x) :
    calculateGiniCoefficient (List.replicate n x) = 0 := by
  have hn0 : (0 : Int) < (n : Int) := by exact_mod_cast Nat.lt_of_lt_of_le Nat.zero_lt_two hn
  simp only [calculateGiniCoefficient]
  rw [insertionSort_replicate]
  simp only [List.length_replicate]
  rw [if_neg (by omega), if_neg (by omega), foldl_replicate]
  rw [if_neg (ne_of_gt (mul_pos hn0 hx))]
  have hWS : (∑ i ∈ Finset.range n, ((i : Int) + 1) * (List.replicate n x).getD i 0)
      = (∑ i ∈ Finset.range n, ((i : Int) + 1)) * x := by
    rw [Finset.sum_mul]
    exact Finset.sum_congr rfl
      (fun i hi => by rw [getD_replicate n i x (Finset.mem_range.mp hi)])
  rw [hWS]
  set S : Int := ∑ i ∈ Finset.range n, ((i : Int) + 1) with hSdef
  have hS2 := sum_range_succ_gauss n
  rw [← hSdef] at hS2
  have hSnn : 0 ≤ S := by
    rw [hSdef]
    exact Finset.sum_nonneg (fun i _ => by positivity)
  have hq : jsDiv ((2 * (S * x)) * 10000) ((n : Int) * ((n : Int) * x))
      = (20000 * S) / ((n : Int) * (n : Int)) := by
    rw [show (2 * (S * x)) * 10000 = (20000 * S) * x by ring,
        show (n : Int) * ((n : Int) * x) = ((n : Int) * (n : Int)) * x by ring]
    rw [jsDiv_eq_ediv (mul_nonneg (by nlinarith) hx.le)
      (mul_nonneg (mul_nonneg hn0.le hn0.le) hx.le)]
    exact Int.mul_ediv_mul_of_pos_left (20000 * S) ((n : Int) * (n : Int)) hx
  rw [hq]
  set q : Int := (20000 * S) / ((n : Int) * (n : Int)) with hqdef
  have hqb : q * ((n : Int) * (n : Int)) ≤ 20000 * S := by
    rw [hqdef]
    exact Int.ediv_mul_le _ (by nlinarith)
  have h5 : q * (n : Int) ≤ 10000 * ((n : Int) + 1) := by nlinarith [hqb, hS2, hn0]
  have hfinal : ((q : ℚ)) / 10000 - (((n : Int) + 1 : Int) : ℚ) / (((n : Int) : Int) : ℚ) ≤ 0 := by
    rw [sub_nonpos, div_le_div_iff₀ (by norm_num) (by exact_mod_cast hn0)]
    have h6 : q * (n : Int) ≤ ((n : Int) + 1) * 10000 := by linarith
    exact_mod_cast h6
  exact max_eq_left (le_trans inf_le_right hfinal)

theorem gini_range_aux (l : List Int) :
    0 ≤ calculateGiniCoefficient l ∧ calculateGiniCoefficient l ≤ 1 := by
  simp only [calculateGiniCoefficient]
  split_ifs with h1 h2 h3
  · exact ⟨le_refl 0, by norm_num⟩
  · exact ⟨le_refl 0, by norm_num⟩
  · exact ⟨le_refl 0, by norm_num⟩
  · exact ⟨le_max_left 0 _, max_le (by norm_num) inf_le_left⟩

theorem gini_replicate_zero (n : Nat) (hn : 2 ≤ n) :
    calculateGiniCoefficient (List.replicate n (0 : Int)) = 0 := by
  simp only [calculateGiniCoefficient]
  rw [insertionSort_replicate]
  simp only [List.length_replicate]
  rw [if_neg (by omega), if_neg (by omega), foldl_replicate]
  rw [mul_zero]
  simp

theorem treasury_amended (h : Int) (hg : GENESIS_BLOCK ≤ h) (cs : List ClaimantData)
    (tAddr : String) :
    getTreasuryParticipation h cs tAddr =
      min (((cs.find? (fun c => c.address = tAddr)).map (·.amount)).getD 0)
        (jsDiv (calculateBlockReward h) 2) ∧
      getTreasuryParticipation h cs tAddr ≤ jsDiv (calculateBlockReward h) 2 := by
  have hbr : trendsBlockReward h = calculateBlockReward h :=
    trendsBlockReward_eq_calculateBlockReward h hg
  have hnn : 0 ≤ jsDiv (calculateBlockReward h) 2 :=
    jsDiv_nonneg (calculateBlockReward_nonneg h) (by norm_num)
  unfold getTreasuryParticipation
  cases hfind : cs.find? (fun c => c.address = tAddr) with
  | none =>
    dsimp only
    exact ⟨(min_eq_left hnn).symm, hnn⟩
  | some c =>
    dsimp only
    rw [hbr]
    simp only [Option.map_some', Option.getD_some]
    constructor
    · rcases lt_or_le (jsDiv (calculateBlockReward h) 2) c.amount with hlt | hle
      · rw [if_pos hlt, min_eq_right (le_of_lt hlt)]
      · rw [if_neg (not_lt.mpr hle), min_eq_left hle]
    · rcases lt_or_le (jsDiv (calculateBlockReward h) 2) c.amount with hlt | hle
      · rw [if_pos hlt]
      · rw [if_neg (not_lt.mpr hle)]
        exact hle

/-- C1: the participation snapshots of the tracker do not satisfy the claimed
invariant below the genesis height.  At height 799999 (one block before
genesis) both getParticipationTrends and getCurrentBlockParticipation report
totalDistributed 5000000000 through the inline unguarded reward formula,
while DieselEmissionCalculator.calculateBlockReward returns 0 there, which is
the value the claim and the specification require. -/
theorem participationSnapshot_belowGenesis_nonzero_reward :
    ((getParticipationTrends 799999 799999 (fun _ => [])).blocks.map (·.totalDistributed))
        = [5000000000] ∧
      (getCurrentBlockParticipation (some (some 799999)) (some (some []))).map
          (·.totalDistributed) = some 5000000000 ∧
      calculateBlockReward 799999 = 0 :=
  ⟨rfl, rfl, rfl⟩

/-- C2: for every height at or above genesis the epoch-boundary iteration of
calculateCumulativeEmission returns exactly the naive per-height sum of
calculateBlockReward from genesis to the height inclusive, clamped to
MAX_SUPPLY. -/
theorem calculateCumulativeEmission_eq_reference (h : Int) (hg : GENESIS_BLOCK ≤ h) :
    calculateCumulativeEmission h = referenceCumulativeEmission h :=
  calculateCumulativeEmission_eq_reference_aux h hg

/-- Witness for C2 at the concrete height 800005. -/
theorem calculateCumulativeEmission_eq_reference_witness :
    GENESIS_BLOCK ≤ 800005 ∧
      calculateCumulativeEmission 800005 = referenceCumulativeEmission 800005 :=
  ⟨by norm_num [GENESIS_BLOCK],
    calculateCumulativeEmission_eq_reference 800005 (by norm_num [GENESIS_BLOCK])⟩

/-- C3: calculateRewardPerClaimant is zero for zero claimants and floor
division for a positive claimant count, and in every snapshot over a
non-empty claimant list the per-claimant rewards never exceed the
distributed total while the unallocated dust remainder is smaller than the
claimant count. -/
theorem rewardPerClaimant_floor_dust (R k : Int) (hR : 0 ≤ R) :
    calculateRewardPerClaimant R 0 = 0 ∧
      (0 < k → calculateRewardPerClaimant R k = Int.fdiv R k) ∧
      ∀ (h : Int) (cs : List ClaimantData), cs ≠ [] →
        (trendsSnapshot h cs).rewardPerClaimant * ((trendsSnapshot h cs).totalClaimants : Int) ≤
            (trendsSnapshot h cs).totalDistributed ∧
          (trendsSnapshot h cs).totalDistributed -
              (trendsSnapshot h cs).rewardPerClaimant *
                ((trendsSnapshot h cs).totalClaimants : Int) <
            ((trendsSnapshot h cs).totalClaimants : Int) := by
  refine ⟨by simp [calculateRewardPerClaimant], ?_, ?_⟩
  · intro hk
    unfold calculateRewardPerClaimant
    rw [if_neg (ne_of_gt hk)]
    exact jsDiv_eq_fdiv hR hk
  · intro h cs hcs
    have hlen : 0 < cs.length := List.length_pos.mpr hcs
    have hlenI : (0 : Int) < (cs.length : Int) := by exact_mod_cast hlen
    have ht : 0 ≤ trendsBlockReward h := trendsBlockReward_nonneg h
    have h1 : (trendsSnapshot h cs).totalDistributed = trendsBlockReward h := rfl
    have h2 : ((trendsSnapshot h cs).totalClaimants : Int) = (cs.length : Int) := rfl
    rw [trendsSnapshot_reward h cs hcs, h1, h2]
    exact ⟨jsDiv_mul_le ht hlenI, jsDiv_dust_lt ht hlenI⟩

/-- Witness for C3 with block reward 10 and three claimants. -/
theorem rewardPerClaimant_floor_dust_witness :
    (0 : Int) ≤ 10 ∧ calculateRewardPerClaimant 10 0 = 0 ∧
      calculateRewardPerClaimant 10 3 = Int.fdiv 10 3 ∧
      (trendsSnapshot 850000 [⟨"a", 850000, 5, "", 0⟩]).totalDistributed -
          (trendsSnapshot 850000 [⟨"a", 850000, 5, "", 0⟩]).rewardPerClaimant *
            ((trendsSnapshot 850000 [⟨"a", 850000, 5, "", 0⟩]).totalClaimants : Int) <
        ((trendsSnapshot 850000 [⟨"a", 850000, 5, "", 0⟩]).totalClaimants : Int) := by
  have hmain := rewardPerClaimant_floor_dust 10 3 (by norm_num)
  exact ⟨by norm_num, hmain.1, hmain.2.1 (by norm_num),
    (hmain.2.2 850000 [⟨"a", 850000, 5, "", 0⟩] (by simp)).2⟩

/-- C4: the tracker has no distinct data-unavailable outcome.  A failed
claimant lookup (a thrown RPC error, modelled by the none response) is
returned as the same empty claimant list as a well-formed empty response,
and the downstream snapshot for that height reports zero claimants, exactly
the substitution the claim forbids. -/
theorem unavailable_claimants_indistinguishable :
    getBlockClaimants 850000 none = getBlockClaimants 850000 (some (some [])) ∧
      (trendsSnapshot 850000 (getBlockClaimants 850000 none)).totalClaimants = 0 ∧
      (getCurrentBlockParticipation (some (some 850000)) none).map (·.totalClaimants) =
        some 0 :=
  ⟨rfl, rfl, rfl⟩

/-- C5: calculateCumulativeEmission is monotone on heights at or above
genesis and bounded by MAX_SUPPLY at every height. -/
theorem cumulativeEmission_monotone_bounded :
    (∀ h1 h2 : Int, GENESIS_BLOCK ≤ h1 → h1 ≤ h2 →
        calculateCumulativeEmission h1 ≤ calculateCumulativeEmission h2) ∧
      ∀ h : Int, calculateCumulativeEmission h ≤ MAX_SUPPLY := by
  constructor
  · intro h1 h2 hg1 h12
    rw [cumulativeEmission_closed h1 hg1, cumulativeEmission_closed h2 (le_trans hg1 h12)]
    exact min_le_min
      (mul_le_mul_of_nonneg_right (by omega) (by norm_num [INITIAL_REWARD])) le_rfl
  · intro h
    by_cases hg : GENESIS_BLOCK ≤ h
    · rw [cumulativeEmission_closed h hg]
      exact min_le_right _ _
    · unfold calculateCumulativeEmission
      rw [if_pos (by omega)]
      norm_num [MAX_SUPPLY]

/-- Witness for C5 at concrete heights. -/
theorem cumulativeEmission_monotone_bounded_witness :
    calculateCumulativeEmission 800000 ≤ calculateCumulativeEmission 900000 ∧
      calculateCumulativeEmission 12345 ≤ MAX_SUPPLY :=
  ⟨cumulativeEmission_monotone_bounded.1 800000 900000 (by norm_num [GENESIS_BLOCK])
      (by norm_num),
    cumulativeEmission_monotone_bounded.2 12345⟩

/-- C6: the Gini coefficient of any non-empty constant balance list is
exactly zero (the truncation always errs downward and the final clamp
absorbs it), and on every input the returned coefficient lies in the unit
interval. -/
theorem gini_equal_balances_zero_and_unit_range :
    (∀ (n : Nat) (x : Int), 1 ≤ n → 0 ≤ x →
        calculateGiniCoefficient (List.replicate n x) = 0) ∧
      ∀ l : List Int, 0 ≤ calculateGiniCoefficient l ∧ calculateGiniCoefficient l ≤ 1 := by
  constructor
  · intro n x hn hx
    rcases Nat.lt_or_ge n 2 with h2 | h2
    · have hn1 : n = 1 := by omega
      subst hn1
      rfl
    · rcases eq_or_lt_of_le hx with h0 | h0
      · rw [← h0]
        exact gini_replicate_zero n h2
      · exact gini_replicate_aux n x h2 h0
  · exact gini_range_aux

/-- Witness for C6 on four equal balances and on a skewed list. -/
theorem gini_equal_balances_witness :
    calculateGiniCoefficient (List.replicate 4 100) = 0 ∧
      (0 ≤ calculateGiniCoefficient [1, 1, 1, 97] ∧
        calculateGiniCoefficient [1, 1, 1, 97] ≤ 1) :=
  ⟨gini_equal_balances_zero_and_unit_range.1 4 100 (by norm_num) (by norm_num),
    gini_equal_balances_zero_and_unit_range.2 [1, 1, 1, 97]⟩

/-- C7: categorizeHolders and calculateConcentrationMetrics share the same
ceiling-based top one percent bracket: the whale list has exactly the
bracket size that the concentration metric sums over, and on a non-empty
list that shared size is at least one. -/
theorem whaleBracket_consistency (l : List TokenBalance) (hl : 0 < l.length) :
    (categorizeHolders l).2.whales.length = top1PercentCount l.length ∧
      1 ≤ top1PercentCount l.length ∧
      ((sortByBalanceDesc l).take (top1PercentCount l.length)).length =
        top1PercentCount l.length := by
  have hidx1 := top1PercentIndexOf_pos l.length hl
  have hidxle := top1PercentIndexOf_le l.length hl
  have hcount : top1PercentCount l.length = top1PercentIndexOf l.length :=
    max_eq_right hidx1
  refine ⟨categorizeHolders_whales_len l hl, le_max_left 1 _, ?_⟩
  rw [List.length_take]
  have hlen : (sortByBalanceDesc l).length = l.length := by
    unfold sortByBalanceDesc
    exact List.length_insertionSort _ l
  rw [hlen, hcount]
  exact min_eq_left hidxle

/-- Witness for C7 on a concrete two-holder list. -/
theorem whaleBracket_consistency_witness :
    (categorizeHolders [⟨"a", 7, 0⟩, ⟨"b", 3, 0⟩]).2.whales.length =
        top1PercentCount ([⟨"a", 7, 0⟩, ⟨"b", 3, 0⟩] : List TokenBalance).length ∧
      1 ≤ top1PercentCount ([⟨"a", 7, 0⟩, ⟨"b", 3, 0⟩] : List TokenBalance).length :=
  ⟨(whaleBracket_consistency [⟨"a", 7, 0⟩, ⟨"b", 3, 0⟩] (by norm_num)).1,
    (whaleBracket_consistency [⟨"a", 7, 0⟩, ⟨"b", 3, 0⟩] (by norm_num)).2.1⟩

/-- C8 counterexample: below genesis the treasury cap is computed from the
unguarded inline reward, so at height 799999 a treasury claim of 5000000000
is reported as 2500000000 even though half of
DieselEmissionCalculator.calculateBlockReward there is 0. -/
theorem treasuryContribution_claim_counterexample :
    getTreasuryParticipation 799999
        [{ address := "oylTreasury", blockHeight := 799999, amount := 5000000000,
           transactionId := "tx", timestamp := 0 }] "oylTreasury" = 2500000000 ∧
      min (5000000000 : Int) (jsDiv (calculateBlockReward 799999) 2) = 0 ∧
      getTreasuryParticipation 799999
          [{ address := "oylTreasury", blockHeight := 799999, amount := 5000000000,
             transactionId := "tx", timestamp := 0 }] "oylTreasury" ≠
        min (5000000000 : Int) (jsDiv (calculateBlockReward 799999) 2) := by
  refine ⟨rfl, rfl, by decide⟩

/-- C8 amended: for every height at or above genesis the reported treasury
contribution is exactly the minimum of the raw treasury claim (zero when
absent) and half the block reward, so it never exceeds half the reward. -/
theorem treasuryContribution_cap_amended (h : Int) (hg : GENESIS_BLOCK ≤ h)
    (cs : List ClaimantData) (tAddr : String) :
    getTreasuryParticipation h cs tAddr =
      min (((cs.find? (fun c => c.address = tAddr)).map (·.amount)).getD 0)
        (jsDiv (calculateBlockReward h) 2) ∧
      getTreasuryParticipation h cs tAddr ≤ jsDiv (calculateBlockReward h) 2 :=
  treasury_amended h hg cs tAddr

/-- Witness for the amended C8 at height 850000 with an oversized claim. -/
theorem treasuryContribution_cap_amended_witness :
    GENESIS_BLOCK ≤ 850000 ∧
      getTreasuryParticipation 850000 [⟨"t", 850000, 7000000000, "x", 0⟩] "t" ≤
        jsDiv (calculateBlockReward 850000) 2 :=
  ⟨by norm_num [GENESIS_BLOCK],
    (treasuryContribution_cap_amended 850000 (by norm_num [GENESIS_BLOCK])
      [⟨"t", 850000, 7000000000, "x", 0⟩] "t").2⟩

/-- C9: on the empty input every analyzer operation returns its neutral
default instead of failing. -/
theorem emptyInput_neutral_defaults :
    calculateGiniCoefficient [] = 0 ∧
      (categorizeHolders []).2 =
        { whales := [], dolphins := [], shrimp := [], totalSupply := 0, holderCount := 0 } ∧
      calculateConcentrationMetrics [] =
        { top1PercentShare := 0, top10PercentShare := 0, nakamotoCoefficient := 0 } ∧
      calculateMovingAverageGini [] 10 = 0 :=
  ⟨rfl, rfl, rfl, rfl⟩

/-- C10: on a non-empty holder list with positive total supply the caller
array after categorizeHolders shows every record with its percentage field
overwritten by the truncated share of total supply, while addresses and
balances are unchanged: the input records are mutated in place. -/
theorem categorizeHolders_percentage_writeback (l : List TokenBalance) (hl : 0 < l.length)
    (ht : 0 < totalSupplyOf l) :
    (categorizeHolders l).1 =
        l.map (fun h => { h with percentage :=
          ((jsDiv (h.balance * 10000) (totalSupplyOf l) : Int) : ℚ) / 100 }) ∧
      (categorizeHolders l).1.map (·.address) = l.map (·.address) ∧
      (categorizeHolders l).1.map (·.balance) = l.map (·.balance) := by
  have h1 := categorizeHolders_state l hl
  refine ⟨?_, ?_, ?_⟩
  · rw [h1]
    apply List.map_congr_left
    intro a _
    unfold holderPercentage
    rw [if_pos ht]
  · rw [h1, List.map_map]
    rfl
  · rw [h1, List.map_map]
    rfl

/-- Witness for C10 on a concrete two-holder list. -/
theorem categorizeHolders_percentage_writeback_witness :
    0 < ([⟨"a", 1, 0⟩, ⟨"b", 3, 0⟩] : List TokenBalance).length ∧
      0 < totalSupplyOf [⟨"a", 1, 0⟩, ⟨"b", 3, 0⟩] ∧
      (categorizeHolders [⟨"a", 1, 0⟩, ⟨"b", 3, 0⟩]).1.map (·.balance) =
        ([⟨"a", 1, 0⟩, ⟨"b", 3, 0⟩] : List TokenBalance).map (·.balance) :=
  ⟨by norm_num, by decide,
    (categorizeHolders_percentage_writeback [⟨"a", 1, 0⟩, ⟨"b", 3, 0⟩] (by norm_num)
      (by decide)).2.2⟩
